import Mathlib

/-!
Verification development for the FieldExpense Pro application.

The definitions below are a shallow embedding of the application's core:
the expense data model (types.ts), the ledger operations and PDF report
generation of the main App component (src/unnamed/part_001), the receipt
upload path (src/unnamed/part_000, ReceiptUploader), the manual expense
form (src/components/ExpenseForm.tsx) and the capture geometry
(src/components/DocumentScanner.tsx).

Modelling conventions:
- JS numbers are modelled as rationals; NaN is modelled as a failed parse
  (an Option that is none).
- JS undefined on optional fields is Option.none; the JS falsiness of the
  empty string is modelled explicitly where the code relies on it.
- the blob store (services/dbService, not part of the given sources) is
  modelled from the spec: get returns the payload or an absence signal and
  never errors; it appears as a function argument of type String → Option
  String. Requests the ledger operations issue against it are recorded as
  an explicit list of BlobReq values.
- whether the external jsPDF addImage call succeeds on a given payload
  (it throws on corrupt data) is modelled by a Bool-valued oracle that is
  passed as an argument.
-/

/-- Expense record as declared in types.ts. The amount is a rational;
optional fields are Options. -/
structure Expense where
  id : String
  title : String
  date : String
  amount : ℚ
  currency : String
  category : String
  isVerified : Bool
  receiptUrl : Option String := none
  notes : Option String := none
  issuerAddress : Option String := none
deriving DecidableEq

/-- Expense data without an id, as passed to addExpense (the TS type is
Omit of Expense over the id field). -/
structure ExpenseData where
  title : String
  date : String
  amount : ℚ
  currency : String
  category : String
  isVerified : Bool
  receiptUrl : Option String := none
  notes : Option String := none
  issuerAddress : Option String := none
deriving DecidableEq

/-- Spreading the data together with the generated id into a full record,
as in the newRecord construction of addExpense. -/
def mkExpense (d : ExpenseData) (id : String) : Expense :=
  { id := id, title := d.title, date := d.date, amount := d.amount,
    currency := d.currency, category := d.category, isVerified := d.isVerified,
    receiptUrl := d.receiptUrl, notes := d.notes, issuerAddress := d.issuerAddress }

/-- Report metadata as declared in types.ts (periodType omitted; it plays
no role in any operation modelled here). -/
structure ReportMetadata where
  approverName : String
  purpose : String
  claimant : String
  periodLabel : String
  startDate : String
  endDate : String
  receivedAmount : ℚ
  signatureUrl : Option String := none
deriving DecidableEq

/-- Requests issued against the external blob store (services/dbService). -/
inductive BlobReq where
  | save (id payload : String)
  | del (id : String)
  | purge
deriving DecidableEq

/-- JS expression (a || b) on strings: the empty string is falsy. -/
def jsOrStr (a b : String) : String := if a = "" then b else a

/-- JS falsiness of an optional string: undefined and the empty string. -/
def optFalsy (o : Option String) : Bool :=
  match o with
  | none => true
  | some s => s == ""

/-- Leading-sequence test on character lists, the meaning of the JS
startsWith calls of the code. -/
def strStarts : List Char → List Char → Bool
  | [], _ => true
  | _ :: _, [] => false
  | p :: ps, c :: cs => p == c && strStarts ps cs

/-- Test used by the code on payloads: startsWith on the data URI marker. -/
def startsData (s : String) : Bool := strStarts "data:".toList s.toList

/-- addExpense of the App component (src/unnamed/part_001, lines 71-78).
The id produced there from Math.random is modelled as the explicit
argument genId. Returns the new expense list (the record is prepended)
together with the blob-store requests issued: a save when the data carries
an inline data-URI payload. -/
def addExpense (genId : String) (d : ExpenseData) (st : List Expense) :
    List Expense × List BlobReq :=
  let reqs : List BlobReq :=
    match d.receiptUrl with
    | some url => if startsData url then [BlobReq.save genId url] else []
    | none => []
  (mkExpense d genId :: st, reqs)

/-- deleteExpense of the App component (src/unnamed/part_001, lines 87-90):
filters the entry out and issues exactly one blob-store delete request. -/
def deleteExpense (id : String) (st : List Expense) : List Expense × List BlobReq :=
  (st.filter (fun e => e.id != id), [BlobReq.del id])

/-- Digit run folded to a natural number, most significant first. -/
def digitsToNat (ds : List Char) : ℕ :=
  ds.foldl (fun a c => 10 * a + (c.toNat - 48)) 0

/-- Whitespace characters skipped by JS parseFloat. -/
def isWs (c : Char) : Bool :=
  c == ' ' || c == '\t' || c == '\n' || c == '\r'

/-- Model of JS parseFloat on plain decimal literals: optional leading
whitespace, optional sign, a digit run, an optional point with a further
digit run; the longest such numeric head of the string is parsed. A string
with no digits at its head parses to NaN, modelled as none. Exponent forms
and the Infinity literal are outside the rational model. -/
def parseFloatQ (s : String) : Option ℚ :=
  let cs := s.toList.dropWhile isWs
  let signNeg : Bool :=
    match cs with
    | c :: _ => c == '-'
    | [] => false
  let cs1 :=
    match cs with
    | c :: t => if c == '-' || c == '+' then t else cs
    | [] => []
  let intPart := cs1.takeWhile Char.isDigit
  let rest := cs1.drop intPart.length
  let fracPart :=
    match rest with
    | c :: t => if c == '.' then t.takeWhile Char.isDigit else []
    | [] => []
  if intPart.isEmpty && fracPart.isEmpty then none
  else
    let mag : ℚ := (digitsToNat intPart : ℚ) + (digitsToNat fracPart : ℚ) / (10 : ℚ) ^ fracPart.length
    some (if signNeg then -mag else mag)

/-- JS expression (x || 0) on a numeric value that may be NaN: NaN and
zero give 0, every other value passes through. -/
def jsOrZero (q : Option ℚ) : ℚ :=
  match q with
  | none => 0
  | some v => if v = 0 then 0 else v

/-- State of the manual entry form (ExpenseForm.tsx, formData). -/
structure FormData where
  title : String
  amount : String
  category : String
  date : String
  currency : String
  issuerAddress : String
  notes : String
  receiptUrl : String

/-- Payload built by handleSubmit of ExpenseForm.tsx (lines 25-45): the
amount string goes through parseFloat with a falsy fallback to 0; the
submit is unconditional, no field is validated or rejected. -/
def submitPayload (f : FormData) : ExpenseData :=
  { title := f.title,
    amount := jsOrZero (parseFloatQ f.amount),
    category := f.category,
    date := f.date,
    currency := f.currency,
    issuerAddress := some f.issuerAddress,
    isVerified := true,
    notes := some f.notes,
    receiptUrl := some f.receiptUrl }

/-- Structured response of the recognition service after JSON parsing
(ParsedReceiptData in types.ts). The response schema marks title, date,
amount, currency and category required, so they are present, though the
string values may be empty; issuerAddress and explanation are optional. -/
structure ParsedReceiptData where
  title : String
  date : String
  amount : ℚ
  currency : String
  category : String
  explanation : Option String := none
  issuerAddress : Option String := none
deriving DecidableEq

/-- Draft entry built by handleFileUpload of the ReceiptUploader
(src/unnamed/part_000, lines 24-34) from a recognition result: falsy
fields fall back to fixed defaults, the date to today. -/
def uploadDraft (today : String) (dataUri : String) (r : ParsedReceiptData) : ExpenseData :=
  { title := jsOrStr r.title "Uploaded Receipt",
    amount := jsOrZero (some r.amount),
    currency := jsOrStr r.currency "USD",
    category := jsOrStr r.category "Miscellaneous",
    date := jsOrStr r.date today,
    isVerified := true,
    receiptUrl := some dataUri }

/-- Draft entry built by handleCapture of the App component
(src/unnamed/part_001, lines 110-132) from a recognition result: only the
currency is defaulted, the other fields are forwarded as returned. -/
def captureDraft (base64 mimeType : String) (r : ParsedReceiptData) : ExpenseData :=
  { title := r.title,
    amount := r.amount,
    category := r.category,
    date := r.date,
    issuerAddress := r.issuerAddress,
    receiptUrl := some ("data:" ++ mimeType ++ ";base64," ++ base64),
    isVerified := true,
    notes := r.explanation,
    currency := jsOrStr r.currency "PHP" }

/-- Rectangle in video pixel space. -/
structure SourceRect where
  x : ℚ
  y : ℚ
  w : ℚ
  h : ℚ
deriving DecidableEq

/-- Cover-fit stage of capturePhoto (DocumentScanner.tsx, lines 76-87):
when the video aspect exceeds the viewport aspect the width is clipped and
centered, otherwise the height is. -/
def coverFit (vW vH wW wH : ℚ) : SourceRect :=
  let vAspect := vW / vH
  let sAspect := wW / wH
  if sAspect < vAspect then
    { x := (vW - vH * sAspect) / 2, y := 0, w := vH * sAspect, h := vH }
  else
    { x := 0, y := (vH - vW / sAspect) / 2, w := vW, h := vW / sAspect }

/-- Guide-percentage stage of capturePhoto (DocumentScanner.tsx, lines
92-100) for a guide rectangle at (gx, gy) of size gw by gh in viewport
units: its position and size as fractions of the viewport are applied to
the cover-fit rectangle. -/
def guideSourceRect (vW vH wW wH gx gy gw gh : ℚ) : SourceRect :=
  let s := coverFit vW vH wW wH
  { x := s.x + (gx / wW) * s.w,
    y := s.y + (gy / wH) * s.h,
    w := (gw / wW) * s.w,
    h := (gh / wH) * s.h }

/-- On-screen guide rectangle as computed in capturePhoto (lines 89-95):
width the minimum of 85 percent of the viewport width and 450, height the
minimum of 60 percent of the viewport height and 600, centered; returned
as (x, y, w, h). -/
def hudRect (wW wH : ℚ) : ℚ × ℚ × ℚ × ℚ :=
  let hw := min (wW * (85 / 100)) 450
  let hh := min (wH * (60 / 100)) 600
  ((wW - hw) / 2, (wH - hh) / 2, hw, hh)

/-- Rejection reasons of generatePDF, one per early-return alert in
src/unnamed/part_001, lines 140-150. -/
inductive Reject where
  | emptyLedger
  | missingSignature
deriving DecidableEq

/-- Observable events of the attachments appendix: page-add calls with the
arguments given at the call site, embedded image blocks and textual
failure placeholders. -/
inductive AppendixItem where
  | pageAdd (fmt orientation : Option String)
  | imageRec (id : String)
  | placeholderRec (id : String)
deriving DecidableEq

/-- Appendix loop of generatePDF (src/unnamed/part_001, lines 243-269).
getImage models dbService get, which by its contract returns the payload
or an absence signal and never errors; embedOk tells whether the external
addImage call succeeds on a payload. An absent payload or one that is not
a data URI makes the loop continue without any record; a payload whose
embedding throws is caught per entry and leaves a placeholder. The
vertical cursor y starts a fresh page (with explicit a4 format and
portrait orientation) when it exceeds 230; an accepted image advances it
by 4 + 85, a placeholder by 4 + 10. -/
def appendixItems (getImage : String → Option String) (embedOk : String → Bool) :
    List Expense → ℤ → List AppendixItem
  | [], _ => []
  | e :: rest, y =>
    match getImage e.id with
    | none => appendixItems getImage embedOk rest y
    | some img =>
      if !startsData img then appendixItems getImage embedOk rest y
      else
        let newPage : Bool := y > 230
        let items : List AppendixItem :=
          if newPage then [AppendixItem.pageAdd (some "a4") (some "p")] else []
        let y1 : ℤ := if newPage then 20 else y
        if embedOk img then
          items ++ AppendixItem.imageRec e.id :: appendixItems getImage embedOk rest (y1 + 4 + 85)
        else
          items ++ AppendixItem.placeholderRec e.id :: appendixItems getImage embedOk rest (y1 + 4 + 10)

/-- Appendix of the report (src/unnamed/part_001, lines 236-270): when the
ledger is nonempty a first appendix page is added with explicit a4 format
and portrait orientation and the loop runs with the cursor at 35. -/
def appendixFull (getImage : String → Option String) (embedOk : String → Bool)
    (expenses : List Expense) : List AppendixItem :=
  if expenses.length = 0 then []
  else AppendixItem.pageAdd (some "a4") (some "p") :: appendixItems getImage embedOk expenses 35

/-- One row of the tabular body (src/unnamed/part_001, lines 198-204); the
string formatting of the amount cell is elided, its rational value kept. -/
structure TableRow where
  date : String
  title : String
  address : String
  category : String
  amount : ℚ
deriving DecidableEq

/-- Row construction: an undefined or empty issuer address falls back to
the fixed placeholder text. -/
def tableRowOf (e : Expense) : TableRow :=
  { date := e.date,
    title := e.title,
    address := (match e.issuerAddress with
      | some a => jsOrStr a "Verified Branch"
      | none => "Verified Branch"),
    category := e.category,
    amount := e.amount }

/-- Observable content of the assembled document: the liquidation summary
figures, the surplus/shortage classification, the table body in ledger
order and the appendix events. -/
structure PDFDoc where
  totalSpent : ℚ
  balance : ℚ
  surplus : Bool
  tableBody : List TableRow
  appendix : List AppendixItem
deriving DecidableEq

/-- generatePDF of the App component (src/unnamed/part_001, lines
140-277). An empty ledger and a falsy signature reference are rejected, in
that order, before any document is produced. Otherwise totalSpent is the
fold of the amounts, balance is receivedAmount minus totalSpent, the
surplus flag is the test balance at least 0 choosing the summary line, the
table body maps the entries in ledger order and the appendix is built by
the loop above. The signature embedding on the main page has its own
per-image catch and the text drawing calls are total, so within this model
the surrounding top-level catch is never reached. -/
def generatePDF (getImage : String → Option String) (embedOk : String → Bool)
    (expenses : List Expense) (md : ReportMetadata) : Except Reject PDFDoc :=
  if expenses.length = 0 then Except.error Reject.emptyLedger
  else if optFalsy md.signatureUrl then Except.error Reject.missingSignature
  else
    let totalSpent := expenses.foldl (fun s e => s + e.amount) 0
    let balance := md.receivedAmount - totalSpent
    Except.ok
      { totalSpent := totalSpent,
        balance := balance,
        surplus := decide (0 ≤ balance),
        tableBody := expenses.map tableRowOf,
        appendix := appendixFull getImage embedOk expenses }

/-- Appendix records are the image blocks and placeholders, page adds are
layout only. -/
def isRecord (it : AppendixItem) : Bool :=
  match it with
  | AppendixItem.imageRec _ => true
  | AppendixItem.placeholderRec _ => true
  | AppendixItem.pageAdd _ _ => false

/-- Record subsequence of an appendix event list. -/
def recordsOf (l : List AppendixItem) : List AppendixItem := l.filter isRecord

/-- Outcome of the appendix loop for a single entry, in isolation: an
image block when its blob resolves to a data URI that embeds, a
placeholder when the embedding throws, nothing when the blob is absent or
not a data URI. -/
def recordFor (getImage : String → Option String) (embedOk : String → Bool) (e : Expense) :
    List AppendixItem :=
  match getImage e.id with
  | none => []
  | some img =>
    if !startsData img then []
    else if embedOk img then [AppendixItem.imageRec e.id]
    else [AppendixItem.placeholderRec e.id]

/-- Number of appendix records of a generation outcome, none on rejection. -/
def recordCountOf (r : Except Reject PDFDoc) : Option ℕ :=
  match r with
  | Except.ok d => some (recordsOf d.appendix).length
  | Except.error _ => none

/-- Balance figure of a generation outcome, none on rejection. -/
def balanceOf (r : Except Reject PDFDoc) : Option ℚ :=
  match r with
  | Except.ok d => some d.balance
  | Except.error _ => none

/-- Surplus classification of a generation outcome, none on rejection. -/
def surplusOf (r : Except Reject PDFDoc) : Option Bool :=
  match r with
  | Except.ok d => some d.surplus
  | Except.error _ => none

/-- Sample ledger entry used in concrete instantiations. -/
def exExpense : Expense :=
  { id := "CWX-AAAAA", title := "Taxi", date := "2026-01-05", amount := 100,
    currency := "PHP", category := "Transport", isVerified := true }

/-- Sample entry data without id. -/
def exData : ExpenseData :=
  { title := "Lunch", date := "2026-01-06", amount := 50,
    currency := "PHP", category := "Food", isVerified := true }

/-- Sample metadata with a signature reference set. -/
def exMetadata : ReportMetadata :=
  { approverName := "FINANCE AUTHORIZER", purpose := "Site Visitation",
    claimant := "Field Personnel", periodLabel := "Quezon Ave Project",
    startDate := "2026-01-01", endDate := "2026-01-31", receivedAmount := 0,
    signatureUrl := some "data:image/png;base64,sig" }

/-- Sample metadata without a signature reference. -/
def exMetaNoSig : ReportMetadata := { exMetadata with signatureUrl := none }

/-- Sample metadata with a received amount of 1000 and a signature. -/
def exMeta1000 : ReportMetadata := { exMetadata with receivedAmount := 1000 }

/-- Sample blob store in which every key resolves to a JPEG data URI. -/
def exGi : String → Option String := fun _ => some "data:image/jpeg;base64,xyz"

/-- Sample blob store in which every key is absent. -/
def exGiAbsent : String → Option String := fun _ => none

/-- Sample embedding oracle on which every payload embeds. -/
def exOk : String → Bool := fun _ => true

/-- Two entries totalling 1200 for the shortage scenario. -/
def exList1200 : List Expense :=
  [{ exExpense with amount := 700 }, { exExpense with id := "CWX-BBBBB", amount := 500 }]

/-- Two entries totalling 800 for the surplus scenario. -/
def exList800 : List Expense :=
  [{ exExpense with amount := 300 }, { exExpense with id := "CWX-BBBBB", amount := 500 }]

/-- Document produced on the sample single-entry ledger with every blob
resolving and embedding. -/
def exDoc : PDFDoc :=
  { totalSpent := 100,
    balance := -100,
    surplus := false,
    tableBody := [tableRowOf exExpense],
    appendix := [AppendixItem.pageAdd (some "a4") (some "p"), AppendixItem.imageRec "CWX-AAAAA"] }

/-- Sample form input carrying a negative amount string. -/
def exForm : FormData :=
  { title := "Taxi", amount := "-5", category := "Transport", date := "2026-01-05",
    currency := "PHP", issuerAddress := "", notes := "", receiptUrl := "" }

/-- Sample recognition result whose optional-style string fields are empty. -/
def exParsedNoCur : ParsedReceiptData :=
  { title := "Store", date := "2026-01-02", amount := 50, currency := "", category := "Food" }

/-- Sample form input whose amount string has no numeric head. -/
def exFormAbc : FormData :=
  { title := "Taxi", amount := "abc", category := "Transport", date := "2026-01-05",
    currency := "PHP", issuerAddress := "", notes := "", receiptUrl := "" }

/-- Helper facts first, then one theorem per claim follows. -/
lemma foldl_amount (l : List Expense) (a : ℚ) :
    l.foldl (fun s e => s + e.amount) a = a + (l.map Expense.amount).sum := by
  induction l generalizing a with
  | nil => simp
  | cons e t ih => simp [List.foldl_cons, ih, add_assoc]

/-- Fields of a successfully generated document, read off the code of
generatePDF once both guards have passed. -/
lemma generatePDF_ok (gi : String → Option String) (ok : String → Bool)
    (l : List Expense) (md : ReportMetadata) (d : PDFDoc)
    (h : generatePDF gi ok l md = Except.ok d) :
    d.totalSpent = (l.map Expense.amount).sum ∧
    d.balance = md.receivedAmount - d.totalSpent ∧
    (d.surplus = true ↔ 0 ≤ d.balance) ∧
    d.tableBody = l.map tableRowOf ∧
    d.appendix = appendixFull gi ok l := by
  by_cases h0 : l.length = 0
  · simp [generatePDF, h0] at h
  · by_cases hs : optFalsy md.signatureUrl = true
    · simp [generatePDF, h0, hs] at h
    · simp only [generatePDF, h0, hs, if_false, Bool.false_eq_true, ite_false,
        Except.ok.injEq] at h
      subst h
      refine ⟨by simp [foldl_amount], rfl, by simp, rfl, rfl⟩

/-- Records produced by the appendix loop, independent of the cursor: each
entry contributes exactly its isolated outcome, in ledger order. -/
lemma recordsOf_appendixItems (gi : String → Option String) (ok : String → Bool)
    (l : List Expense) (y : ℤ) :
    recordsOf (appendixItems gi ok l y) = l.flatMap (recordFor gi ok) := by
  induction l generalizing y with
  | nil => simp [appendixItems, recordsOf]
  | cons e t ih =>
    simp only [appendixItems, List.flatMap_cons, recordFor]
    cases hgi : gi e.id with
    | none => simp [ih]
    | some img =>
      by_cases hsd : startsData img = true
      · simp only [hsd, Bool.not_true, if_false, Bool.false_eq_true, ite_false]
        by_cases hok : ok img = true
        · by_cases hy : y > 230 <;>
            · simp [hy, hok, recordsOf, List.filter_append, isRecord]
              exact ih _
        · simp only [hok, Bool.false_eq_true, ite_false]
          by_cases hy : y > 230 <;>
            · simp [hy, hok, recordsOf, List.filter_append, isRecord]
              exact ih _
      · simp [hsd, ih]

/-- Every page-add call issued inside the appendix loop carries the
explicit a4 format and portrait orientation. -/
lemma pageAdd_mem_appendixItems (gi : String → Option String) (ok : String → Bool)
    (l : List Expense) (y : ℤ) (f o : Option String)
    (hmem : AppendixItem.pageAdd f o ∈ appendixItems gi ok l y) :
    f = some "a4" ∧ o = some "p" := by
  induction l generalizing y with
  | nil => simp [appendixItems] at hmem
  | cons e t ih =>
    simp only [appendixItems] at hmem
    cases hgi : gi e.id with
    | none => rw [hgi] at hmem; exact ih y hmem
    | some img =>
      rw [hgi] at hmem
      by_cases hsd : startsData img = true
      · simp only [hsd, Bool.not_true, if_false, Bool.false_eq_true, ite_false] at hmem
        by_cases hok : ok img = true <;> by_cases hy : y > 230 <;>
          simp [hy, hok] at hmem <;>
          (try rcases hmem with hmem | hmem) <;> first
            | (exact hmem)
            | (exact ⟨hmem.1.symm, hmem.2.symm⟩)
            | (exact ih _ hmem)
      · simp only [hsd] at hmem
        simp only [Bool.not_false, if_true, ite_true] at hmem
        exact ih y hmem

/-- Records of a successfully generated document, shared by the appendix
claims. -/
lemma recordsOf_generatePDF (gi : String → Option String) (ok : String → Bool)
    (l : List Expense) (md : ReportMetadata) (d : PDFDoc)
    (h : generatePDF gi ok l md = Except.ok d) :
    recordsOf d.appendix = l.flatMap (recordFor gi ok) := by
  have h0 : ¬ l.length = 0 := by
    intro h0
    simp [generatePDF, h0] at h
  have happ := (generatePDF_ok gi ok l md d h).2.2.2.2
  rw [happ]
  unfold appendixFull
  rw [if_neg h0]
  simp only [recordsOf]
  rw [List.filter_cons_of_neg (by simp [isRecord])]
  exact recordsOf_appendixItems gi ok l 35

/-- C1 (amended): in a successfully generated report the appendix holds,
in ledger order, exactly one image block for each entry whose blob
resolves to a data URI that embeds, one textual placeholder for each entry
whose embedding throws, and no record for an entry whose blob is absent or
not a data URI; each entry's outcome is independent of every other
entry's, so one failed resolution never aborts the appendix. -/
theorem c1_appendix_partial_isolation (gi : String → Option String) (ok : String → Bool)
    (l : List Expense) (md : ReportMetadata) (d : PDFDoc)
    (h : generatePDF gi ok l md = Except.ok d) :
    recordsOf d.appendix = l.flatMap (recordFor gi ok) :=
  recordsOf_generatePDF gi ok l md d h

/-- Witness for C1 at a concrete one-entry ledger whose blob resolves. -/
theorem c1_appendix_partial_isolation_witness :
    recordsOf exDoc.appendix = [exExpense].flatMap (recordFor exGi exOk) :=
  c1_appendix_partial_isolation exGi exOk [exExpense] exMetadata exDoc (by
    simp [generatePDF, exGi, exOk, exExpense, exMetadata, exDoc, optFalsy,
      appendixFull, appendixItems, startsData, strStarts, tableRowOf, jsOrStr])

/-- C1 counterexample: a single-entry ledger whose blob store reports the
entry absent yields a document whose appendix has zero records, not the
one record per entry the claim requires; the entry is skipped without a
placeholder. -/
theorem c1_absent_blob_entry_dropped :
    recordCountOf (generatePDF exGiAbsent exOk [exExpense] exMetadata) = some 0 ∧
    [exExpense].length = 1 := by
  constructor
  · simp [recordCountOf, generatePDF, exGiAbsent, exOk, exExpense, exMetadata, optFalsy,
      appendixFull, appendixItems, recordsOf, isRecord]
  · rfl

/-- C2: generation on an empty ledger is rejected with the empty-ledger
reason; generation on a nonempty ledger without a signature reference is
rejected with the missing-signature reason; the two reasons are distinct
and in both cases no document is produced. -/
theorem c2_refuses_empty_and_unsigned :
    (∀ (gi : String → Option String) (ok : String → Bool) (md : ReportMetadata),
      generatePDF gi ok [] md = Except.error Reject.emptyLedger) ∧
    (∀ (gi : String → Option String) (ok : String → Bool) (l : List Expense)
        (md : ReportMetadata), l ≠ [] → optFalsy md.signatureUrl = true →
      generatePDF gi ok l md = Except.error Reject.missingSignature) ∧
    Reject.emptyLedger ≠ Reject.missingSignature := by
  refine ⟨fun gi ok md => by simp [generatePDF], fun gi ok l md hl hs => ?_, by simp⟩
  have h0 : ¬ l.length = 0 := by simpa [List.length_eq_zero] using hl
  simp [generatePDF, h0, hs]

/-- Witness for C2 on a nonempty ledger without a signature. -/
theorem c2_refuses_empty_and_unsigned_witness :
    generatePDF exGi exOk [exExpense] exMetaNoSig = Except.error Reject.missingSignature :=
  c2_refuses_empty_and_unsigned.2.1 exGi exOk [exExpense] exMetaNoSig (by simp)
    (by simp [exMetaNoSig, exMetadata, optFalsy])

/-- C4 (amended): the amount a form submit stores is the parsed value of
the amount string with falsy coercion: a failed parse stores exactly 0, a
parse of 0 stores 0, and any other parsed value, negative values included,
is stored unchanged; the submit itself never rejects an entry. -/
theorem c4_amount_coercion (f : FormData) :
    (parseFloatQ f.amount = none → (submitPayload f).amount = 0) ∧
    (parseFloatQ f.amount = some 0 → (submitPayload f).amount = 0) ∧
    (∀ v : ℚ, parseFloatQ f.amount = some v → v ≠ 0 → (submitPayload f).amount = v) :=
  ⟨fun h => by simp [submitPayload, jsOrZero, h],
   fun h => by simp [submitPayload, jsOrZero, h],
   fun v h hv => by simp [submitPayload, jsOrZero, h, hv]⟩

/-- Witness for C4 on a form input whose amount string has no numeric head. -/
theorem c4_amount_coercion_witness : (submitPayload exFormAbc).amount = 0 :=
  (c4_amount_coercion exFormAbc).1 (by simp [exFormAbc, parseFloatQ, isWs])

/-- C4 counterexample: the form input with amount string minus five parses
successfully and is stored as the negative value minus five, so the stored
amount is not always at least 0. -/
theorem c4_negative_amount_stored :
    (submitPayload exForm).amount = -5 ∧ ¬ (0 : ℚ) ≤ (submitPayload exForm).amount := by
  have h : (submitPayload exForm).amount = -5 := by
    simp [submitPayload, exForm, parseFloatQ, digitsToNat, isWs, jsOrZero]
  exact ⟨h, by rw [h]; norm_num⟩

/-- C5: in every successfully generated report, totalSpent is the sum of
the entry amounts, the balance is receivedAmount minus totalSpent, and the
summary line is the surplus one exactly when the balance is at least 0;
with 1000 received and entries totalling 1200 the balance is minus 200
classified as shortage, and with entries totalling 800 it is 200
classified as surplus. -/
theorem c5_balance_and_classification :
    (∀ (gi : String → Option String) (ok : String → Bool) (l : List Expense)
        (md : ReportMetadata) (d : PDFDoc), generatePDF gi ok l md = Except.ok d →
      d.totalSpent = (l.map Expense.amount).sum ∧
      d.balance = md.receivedAmount - d.totalSpent ∧
      (d.surplus = true ↔ 0 ≤ d.balance)) ∧
    balanceOf (generatePDF exGi exOk exList1200 exMeta1000) = some (-200) ∧
    surplusOf (generatePDF exGi exOk exList1200 exMeta1000) = some false ∧
    balanceOf (generatePDF exGi exOk exList800 exMeta1000) = some 200 ∧
    surplusOf (generatePDF exGi exOk exList800 exMeta1000) = some true := by
  refine ⟨fun gi ok l md d h => ?_, ?_, ?_, ?_, ?_⟩
  · have hh := generatePDF_ok gi ok l md d h
    exact ⟨hh.1, hh.2.1, hh.2.2.1⟩
  · simp [balanceOf, generatePDF, exGi, exOk, exList1200, exMeta1000, exMetadata,
      exExpense, optFalsy]
    norm_num
  · simp [surplusOf, generatePDF, exGi, exOk, exList1200, exMeta1000, exMetadata,
      exExpense, optFalsy]
    norm_num
  · simp [balanceOf, generatePDF, exGi, exOk, exList800, exMeta1000, exMetadata,
      exExpense, optFalsy]
    norm_num
  · simp [surplusOf, generatePDF, exGi, exOk, exList800, exMeta1000, exMetadata,
      exExpense, optFalsy]
    norm_num

/-- Witness for C5 on the concrete single-entry document. -/
theorem c5_balance_and_classification_witness :
    exDoc.totalSpent = ([exExpense].map Expense.amount).sum ∧
    exDoc.balance = exMetadata.receivedAmount - exDoc.totalSpent ∧
    (exDoc.surplus = true ↔ 0 ≤ exDoc.balance) :=
  c5_balance_and_classification.1 exGi exOk [exExpense] exMetadata exDoc (by
    simp [generatePDF, exGi, exOk, exExpense, exMetadata, exDoc, optFalsy,
      appendixFull, appendixItems, startsData, strStarts, tableRowOf, jsOrStr])

/-- C9: every page added for the attachments appendix, the first appendix
page and every overflow page alike, is created by a page-add call with
explicitly specified a4 format and portrait orientation, so all appendix
pages share the same fixed orientation. -/
theorem c9_appendix_pages_explicit_portrait (gi : String → Option String) (ok : String → Bool)
    (l : List Expense) (f o : Option String)
    (hmem : AppendixItem.pageAdd f o ∈ appendixFull gi ok l) :
    f = some "a4" ∧ o = some "p" := by
  unfold appendixFull at hmem
  by_cases h0 : l.length = 0
  · rw [if_pos h0] at hmem
    simp at hmem
  · rw [if_neg h0] at hmem
    rcases List.mem_cons.mp hmem with h1 | h1
    · simp only [AppendixItem.pageAdd.injEq] at h1
      exact h1
    · exact pageAdd_mem_appendixItems gi ok l 35 f o h1

/-- Witness for C9 at the first appendix page of a concrete generation. -/
theorem c9_appendix_pages_explicit_portrait_witness :
    (some "a4" : Option String) = some "a4" ∧ (some "p" : Option String) = some "p" :=
  c9_appendix_pages_explicit_portrait exGi exOk [exExpense] (some "a4") (some "p") (by
    simp [appendixFull, appendixItems, exGi, exOk, exExpense, startsData, strStarts])

/-- C10: add prepends the new record, leaving the pre-existing entries and
their relative order untouched, and both the report's table body and its
appendix records follow the ledger order, so the report lists entries
most-recently-added first. -/
theorem c10_add_prepends_report_in_ledger_order :
    (∀ (genId : String) (d : ExpenseData) (st : List Expense),
      (addExpense genId d st).1 = mkExpense d genId :: st) ∧
    (∀ (gi : String → Option String) (ok : String → Bool) (l : List Expense)
        (md : ReportMetadata) (d : PDFDoc), generatePDF gi ok l md = Except.ok d →
      d.tableBody = l.map tableRowOf ∧ recordsOf d.appendix = l.flatMap (recordFor gi ok)) :=
  ⟨fun _ _ _ => rfl,
   fun gi ok l md d h =>
     ⟨(generatePDF_ok gi ok l md d h).2.2.2.1, recordsOf_generatePDF gi ok l md d h⟩⟩

/-- Witness for C10 on the concrete single-entry document. -/
theorem c10_add_prepends_report_in_ledger_order_witness :
    exDoc.tableBody = [exExpense].map tableRowOf ∧
    recordsOf exDoc.appendix = [exExpense].flatMap (recordFor exGi exOk) :=
  c10_add_prepends_report_in_ledger_order.2 exGi exOk [exExpense] exMetadata exDoc (by
    simp [generatePDF, exGi, exOk, exExpense, exMetadata, exDoc, optFalsy,
      appendixFull, appendixItems, startsData, strStarts, tableRowOf, jsOrStr])

/-- C6 (amended): provided the generated id does not already occur in the
ledger, adding an entry and then deleting the generated id restores the
entry list exactly, and across the two operations exactly one blob-store
delete request is issued for that id. -/
theorem c6_add_delete_restores (genId : String) (d : ExpenseData) (st : List Expense)
    (hdist : st.Pairwise (fun a b => a.id ≠ b.id))
    (hfresh : ∀ e ∈ st, e.id ≠ genId) :
    (deleteExpense genId (addExpense genId d st).1).1 = st ∧
    (((addExpense genId d st).2 ++ (deleteExpense genId (addExpense genId d st).1).2).countP
      (fun r => r == BlobReq.del genId)) = 1 := by
  constructor
  · show ((mkExpense d genId :: st).filter (fun e => e.id != genId)) = st
    rw [List.filter_cons_of_neg (by simp [mkExpense])]
    exact List.filter_eq_self.mpr (fun e he => by simpa using hfresh e he)
  · rw [List.countP_append]
    have h1 : (addExpense genId d st).2.countP (fun r => r == BlobReq.del genId) = 0 := by
      unfold addExpense
      cases hr : d.receiptUrl with
      | none => simp
      | some url =>
        by_cases hu : startsData url = true <;> simp [hu, List.countP_cons]
    have h2 : (deleteExpense genId (addExpense genId d st).1).2.countP
        (fun r => r == BlobReq.del genId) = 1 := by
      simp [deleteExpense, List.countP_cons]
    rw [h1, h2]

/-- Witness for C6 at a fresh concrete id. -/
theorem c6_add_delete_restores_witness :
    (deleteExpense "CWX-BBBBB" (addExpense "CWX-BBBBB" exData [exExpense]).1).1 = [exExpense] ∧
    (((addExpense "CWX-BBBBB" exData [exExpense]).2 ++
      (deleteExpense "CWX-BBBBB" (addExpense "CWX-BBBBB" exData [exExpense]).1).2).countP
      (fun r => r == BlobReq.del "CWX-BBBBB")) = 1 :=
  c6_add_delete_restores "CWX-BBBBB" exData [exExpense] (by simp)
    (by intro e he; simp only [List.mem_singleton] at he; subst he; simp [exExpense])

/-- C6 counterexample: the generated id is random and unchecked; when it
collides with an existing entry's id, deleting it removes both the new and
the old entry, so the entry set is not restored even though the prior
ledger had pairwise distinct ids. -/
theorem c6_colliding_id_not_restored :
    ([exExpense].Pairwise (fun a b => a.id ≠ b.id)) ∧
    (deleteExpense "CWX-AAAAA" (addExpense "CWX-AAAAA" exData [exExpense]).1).1 ≠ [exExpense] := by
  refine ⟨by simp, ?_⟩
  have h : (deleteExpense "CWX-AAAAA" (addExpense "CWX-AAAAA" exData [exExpense]).1).1 = [] := by
    simp [deleteExpense, addExpense, mkExpense, exData, exExpense]
  rw [h]
  simp

/-- C7: when the video aspect ratio equals the viewport aspect ratio, the
cover-fit stage is the identity, returning the full video frame at the
origin. -/
theorem c7_cover_fit_identity (vW vH wW wH : ℚ)
    (hvW : 0 < vW) (hvH : 0 < vH) (hwW : 0 < wW) (hwH : 0 < wH)
    (hasp : vW / vH = wW / wH) :
    coverFit vW vH wW wH = { x := 0, y := 0, w := vW, h := vH } := by
  have hW0 : vW ≠ 0 := ne_of_gt hvW
  have hH0 : vH ≠ 0 := ne_of_gt hvH
  have hfull : vW / (wW / wH) = vH := by
    rw [← hasp]
    field_simp
  simp only [coverFit]
  rw [if_neg (by rw [hasp]; exact lt_irrefl _)]
  rw [hfull]
  norm_num [SourceRect.mk.injEq]

/-- Witness for C7 at matching concrete aspect ratios. -/
theorem c7_cover_fit_identity_witness :
    coverFit 1920 1080 960 540 = { x := 0, y := 0, w := 1920, h := 1080 } :=
  c7_cover_fit_identity 1920 1080 960 540 (by norm_num) (by norm_num) (by norm_num)
    (by norm_num) (by norm_num)

/-- C8 (amended): upload-path drafts have every required field nonempty,
with empty fields defaulted: category to Miscellaneous, date to today,
but currency to USD; capture-path drafts default only the currency, to
PHP, and forward category and date as returned; there is thus no single
organization-wide currency default shared by both paths. -/
theorem c8_draft_field_defaults (today uri b64 mime : String) (r : ParsedReceiptData)
    (htoday : today ≠ "") :
    ((uploadDraft today uri r).title ≠ "" ∧ (uploadDraft today uri r).category ≠ "" ∧
      (uploadDraft today uri r).currency ≠ "" ∧ (uploadDraft today uri r).date ≠ "") ∧
    (r.category = "" → (uploadDraft today uri r).category = "Miscellaneous") ∧
    (r.currency = "" → (uploadDraft today uri r).currency = "USD") ∧
    (r.date = "" → (uploadDraft today uri r).date = today) ∧
    (r.currency = "" → (captureDraft b64 mime r).currency = "PHP") ∧
    (captureDraft b64 mime r).category = r.category ∧
    (captureDraft b64 mime r).date = r.date := by
  refine ⟨⟨?_, ?_, ?_, ?_⟩, fun h => by simp [uploadDraft, jsOrStr, h],
    fun h => by simp [uploadDraft, jsOrStr, h], fun h => by simp [uploadDraft, jsOrStr, h],
    fun h => by simp [captureDraft, jsOrStr, h], rfl, rfl⟩
  all_goals simp only [uploadDraft, jsOrStr]
  all_goals split_ifs <;> simp_all

/-- Witness for C8 on the concrete recognition result with empty currency. -/
theorem c8_draft_field_defaults_witness :
    (uploadDraft "2026-01-02" "data:image/jpeg;base64,u" exParsedNoCur).currency = "USD" :=
  ((c8_draft_field_defaults "2026-01-02" "data:image/jpeg;base64,u" "u" "image/jpeg"
    exParsedNoCur (by simp)).2.2.1) (by simp [exParsedNoCur])

/-- C8 counterexample: on the same recognition result with empty currency
the upload path stores USD while the capture path stores PHP, so the two
paths do not share one organization default; and the capture path leaves
an empty category empty rather than defaulting it to the catch-all
bucket. -/
theorem c8_currency_defaults_diverge :
    (uploadDraft "2026-01-02" "data:image/jpeg;base64,u" exParsedNoCur).currency = "USD" ∧
    (captureDraft "u" "image/jpeg" exParsedNoCur).currency = "PHP" ∧
    ("USD" : String) ≠ "PHP" ∧
    (captureDraft "u" "image/jpeg" { exParsedNoCur with category := "" }).category = "" := by
  refine ⟨?_, ?_, by decide, rfl⟩
  · simp [uploadDraft, exParsedNoCur, jsOrStr]
  · simp [captureDraft, exParsedNoCur, jsOrStr]

/-- Interval bound used for both axes of the capture geometry: a source
segment of length t placed centered in a length-L axis, restricted to a
guide fraction of a length-W viewport axis, stays within the axis. -/
lemma seg_bounds (L t g s W : ℚ) (ht0 : 0 ≤ t) (htL : t ≤ L) (hW : 0 < W)
    (hg : 0 ≤ g) (hs : 0 ≤ s) (hsum : g + s ≤ W) :
    0 ≤ (L - t) / 2 + g / W * t ∧ (L - t) / 2 + g / W * t + s / W * t ≤ L := by
  have h1 : (g + s) / W ≤ 1 := (div_le_one hW).mpr hsum
  have h3 : (g + s) / W * t ≤ 1 * t := mul_le_mul_of_nonneg_right h1 ht0
  have h4 : g / W * t + s / W * t = (g + s) / W * t := by ring
  have h5 : 0 ≤ g / W * t := mul_nonneg (div_nonneg hg hW.le) ht0
  have h6 : 0 ≤ s / W * t := mul_nonneg (div_nonneg hs hW.le) ht0
  constructor <;> nlinarith

/-- C3: for positive video and viewport dimensions and any guide rectangle
lying fully inside the viewport, the source rectangle computed by the
cover-fit stage followed by guide-percentage scaling lies entirely within
the video frame. -/
theorem c3_source_rect_within_video (vW vH wW wH gx gy gw gh : ℚ)
    (hvW : 0 < vW) (hvH : 0 < vH) (hwW : 0 < wW) (hwH : 0 < wH)
    (hgx : 0 ≤ gx) (hgy : 0 ≤ gy) (hgw : 0 ≤ gw) (hgh : 0 ≤ gh)
    (hgxw : gx + gw ≤ wW) (hgyh : gy + gh ≤ wH) :
    0 ≤ (guideSourceRect vW vH wW wH gx gy gw gh).x ∧
    (guideSourceRect vW vH wW wH gx gy gw gh).x +
      (guideSourceRect vW vH wW wH gx gy gw gh).w ≤ vW ∧
    0 ≤ (guideSourceRect vW vH wW wH gx gy gw gh).y ∧
    (guideSourceRect vW vH wW wH gx gy gw gh).y +
      (guideSourceRect vW vH wW wH gx gy gw gh).h ≤ vH := by
  simp only [guideSourceRect, coverFit]
  split_ifs with hc
  · have ht0 : 0 ≤ vH * (wW / wH) := by positivity
    have htL : vH * (wW / wH) ≤ vW := by
      have hlt : vH * (wW / wH) < vH * (vW / vH) := mul_lt_mul_of_pos_left hc hvH
      have heq : vH * (vW / vH) = vW := by field_simp
      linarith
    have hx := seg_bounds vW (vH * (wW / wH)) gx gw wW ht0 htL hwW hgx hgw hgxw
    have hyb := seg_bounds vH vH gy gh wH hvH.le le_rfl hwH hgy hgh hgyh
    refine ⟨?_, ?_, ?_, ?_⟩ <;> linarith [hx.1, hx.2, hyb.1, hyb.2]
  · push_neg at hc
    have ht0 : 0 ≤ vW / (wW / wH) := by positivity
    have htL : vW / (wW / wH) ≤ vH := by
      rw [div_le_iff₀ (by positivity)]
      calc vW = vW / vH * vH := by field_simp
        _ ≤ wW / wH * vH := mul_le_mul_of_nonneg_right hc hvH.le
        _ = vH * (wW / wH) := by ring
    have hx := seg_bounds vW vW gx gw wW hvW.le le_rfl hwW hgx hgw hgxw
    have hyb := seg_bounds vH (vW / (wW / wH)) gy gh wH ht0 htL hwH hgy hgh hgyh
    refine ⟨?_, ?_, ?_, ?_⟩ <;> linarith [hx.1, hx.2, hyb.1, hyb.2]

/-- Witness for C3 at the spec scenario: a 4096 by 2160 video, a 1080 by
1920 viewport and the concrete on-screen guide rectangle of the scanner. -/
theorem c3_source_rect_within_video_witness :
    0 ≤ (guideSourceRect 4096 2160 1080 1920 315 660 450 600).x ∧
    (guideSourceRect 4096 2160 1080 1920 315 660 450 600).x +
      (guideSourceRect 4096 2160 1080 1920 315 660 450 600).w ≤ 4096 ∧
    0 ≤ (guideSourceRect 4096 2160 1080 1920 315 660 450 600).y ∧
    (guideSourceRect 4096 2160 1080 1920 315 660 450 600).y +
      (guideSourceRect 4096 2160 1080 1920 315 660 450 600).h ≤ 2160 :=
  c3_source_rect_within_video 4096 2160 1080 1920 315 660 450 600
    (by norm_num) (by norm_num) (by norm_num) (by norm_num) (by norm_num)
    (by norm_num) (by norm_num) (by norm_num) (by norm_num) (by norm_num)
